import Mathlib

/-!
Verification development for the citation-task text utilities.

The repository consists of four Python scripts operating on plain-text corpora
whose samples ("prompts") are separated by lines whose stripped content is the
literal `---`:

  * `validate.py`       - the Sanskrit citation markup validator,
  * `char_counter.py`   - flags samples longer than 2000 characters,
  * `check_duplicates.py` - flags samples sharing a first word,
  * `prompt_counter.py` - counts samples and classifies them by `<quote>` tags.

Each Python function is translated into an executable Lean definition operating
on the decoded file content.  Strings are modelled by Lean `String`
(a list of Unicode code points, matching Python `str`); regular-expression
scans from the source are implemented as explicit left-to-right matchers with
the same backtracking behaviour on the concrete patterns used.  Word
characters and whitespace are modelled over the ASCII range (inputs of
interest here are ASCII markup; this footprint matches Python for them).
Python `set` iteration order inside error messages is fixed to the literal
order of the set displays in the source.
-/

/-- ASCII whitespace stripped by Python `str.strip()`. -/
def isPyWs (c : Char) : Bool :=
  c = ' ' || c = '\t' || c = '\n' || c = '\r' || c = '\x0b' || c = '\x0c'

/-- Python `str.strip()` (whitespace, both ends). -/
def pyStrip (s : String) : String :=
  String.mk (((s.data.dropWhile isPyWs).reverse.dropWhile isPyWs).reverse)

/-- Python `str.rstrip('\n\r')` as used by `char_counter.analyze_file`. -/
def pyRstripNl (s : String) : String :=
  String.mk ((s.data.reverse.dropWhile (fun c => c = '\n' || c = '\r')).reverse)

/-- A regex `\w` word character (ASCII footprint). -/
def isWordChar (c : Char) : Bool :=
  c.isAlphanum || c = '_'

/-- Maximal leading run of word characters, plus the remainder. -/
def takeWord : List Char → List Char × List Char
  | [] => ([], [])
  | c :: cs =>
    if isWordChar c then
      let p := takeWord cs
      (c :: p.1, p.2)
    else ([], c :: cs)

/-- Split a character list at newline characters; mirrors Python
`str.split('\n')` (always at least one piece). -/
def splitNl : List Char → List (List Char)
  | [] => [[]]
  | c :: cs =>
    match splitNl cs with
    | h :: t => if c = '\n' then [] :: h :: t else (c :: h) :: t
    | [] => [[]]

/-- Join pieces with newline characters; mirrors Python `'\n'.join`. -/
def joinNl : List (List Char) → List Char
  | [] => []
  | [l] => l
  | l :: rest => l ++ '\n' :: joinNl rest

/-- Python `content.split('\n')`. -/
def pySplitLines (s : String) : List String :=
  (splitNl s.data).map String.mk

/-- Python `'\n'.join(lines)`. -/
def joinLines (ls : List String) : String :=
  String.mk (joinNl (ls.map String.data))

/-- Python `file.readlines()`: lines keep their trailing newline, and a final
newline does not create an extra empty line. -/
def addNl : List (List Char) → List (List Char)
  | [] => []
  | [last] => if last = [] then [] else [last]
  | p :: rest => (p ++ ['\n']) :: addNl rest

/-- Python `file.readlines()` of decoded content. -/
def pyReadlines (s : String) : List String :=
  (addNl (splitNl s.data)).map String.mk

theorem splitNl_ne_nil (l : List Char) : splitNl l ≠ [] := by
  cases l with
  | nil => simp [splitNl]
  | cons c cs =>
    rw [splitNl]
    split
    · split <;> simp
    · simp

theorem joinNl_splitNl (l : List Char) : joinNl (splitNl l) = l := by
  induction l with
  | nil => simp [splitNl, joinNl]
  | cons c cs ih =>
    rw [splitNl]
    split
    case h_1 h t heq =>
      rw [heq] at ih
      by_cases hc : c = '\n'
      · subst hc
        simpa [joinNl] using ih
      · simp only [if_neg hc]
        cases t with
        | nil => simpa [joinNl] using ih
        | cons x xs => simpa [joinNl] using ih
    case h_2 heq =>
      exact absurd heq (splitNl_ne_nil cs)

theorem joinLines_pySplitLines (s : String) : joinLines (pySplitLines s) = s := by
  cases s with
  | mk data =>
    simp only [joinLines, pySplitLines, List.map_map]
    have : (String.data ∘ String.mk) = id := by
      funext l; rfl
    rw [this, List.map_id, joinNl_splitNl]

/-! ## `validate.py`: data model and fixed vocabulary -/

/-- `validate.py`: the `ValidationError` dataclass. -/
structure ValidationError where
  line_number : Nat
  error_type : String
  message : String
deriving Repr, DecidableEq

/-- An ASCII apostrophe, used inside the Python f-string messages. -/
def apos : String :=
  String.mk [Char.ofNat 39]

/-- Surround a string with apostrophes, as the f-strings in `validate.py` do. -/
def inQuotes (s : String) : String :=
  apos ++ s ++ apos

/-- `SanskritValidator.valid_tags` (`{'quote', 'author', 'title'}`); iteration
order fixed to the set display's order. -/
def valid_tags : List String :=
  ["quote", "author", "title"]

/-- `SanskritValidator.valid_attributes`. -/
def valid_attributes : List String :=
  ["id", "authorid", "titleid", "type"]

/-- `SanskritValidator.valid_type_values`. -/
def valid_type_values : List String :=
  ["generic"]

/-- Python `', '.join(...)`. -/
def joinComma : List String → String
  | [] => ""
  | [s] => s
  | s :: rest => s ++ ", " ++ joinComma rest

/-! ## Regex scans of `validate.py`

`re.findall(r'<(/?)(\w+)([^>]*)>', line)` : scan left to right; a match starts
at a `<`, optionally takes `/`, needs a nonempty word-character run, then runs
to the next `>` (the `[^>]*` group cannot cross one).  On failure the scan
resumes one character later; on success it resumes after the `>`. -/

/-- Characters before the first `>` and the remainder after it, if any. -/
def takeUntilGt : List Char → Option (List Char × List Char)
  | [] => none
  | c :: cs =>
    if c = '>' then some ([], cs)
    else
      match takeUntilGt cs with
      | some (pre, rest) => some (c :: pre, rest)
      | none => none

theorem takeUntilGt_length : ∀ l pre rest, takeUntilGt l = some (pre, rest) →
    rest.length < l.length := by
  intro l
  induction l with
  | nil => intro pre rest h; simp [takeUntilGt] at h
  | cons c cs ih =>
    intro pre rest h
    rw [takeUntilGt] at h
    split at h
    · simp only [Option.some.injEq, Prod.mk.injEq] at h
      obtain ⟨-, h2⟩ := h
      subst h2
      simp
    · cases hx : takeUntilGt cs with
      | none => rw [hx] at h; simp at h
      | some pr =>
        obtain ⟨p, r⟩ := pr
        rw [hx] at h
        simp only [Option.some.injEq, Prod.mk.injEq] at h
        obtain ⟨-, h2⟩ := h
        rw [← h2]
        have := ih p r hx
        simp only [List.length_cons]
        omega

/-- One tag occurrence: (is_closing, tag_name, raw attribute text). -/
abbrev TagMatch := Bool × String × String

/-- Fuel-driven scanner for `r'<(/?)(\w+)([^>]*)>'` over the characters of one
line; `fuel` at least the length of the list makes it total. -/
def findTagsAux : Nat → List Char → List TagMatch
  | 0, _ => []
  | _, [] => []
  | fuel + 1, c :: cs =>
    if c = '<' then
      let p := match cs with
        | '/' :: rest => (true, rest)
        | _ => (false, cs)
      let w := takeWord p.2
      if w.1 = [] then findTagsAux fuel cs
      else
        match takeUntilGt w.2 with
        | some (attrs, rest) =>
          (p.1, String.mk w.1, String.mk attrs) :: findTagsAux fuel rest
        | none => findTagsAux fuel cs
    else findTagsAux fuel cs

/-- All matches of `r'<(/?)(\w+)([^>]*)>'` in one line (also the matches of the
attribute-less variant `r'<(/?)(\w+)[^>]*>'` used by the structure pass). -/
def findTags (line : String) : List TagMatch :=
  findTagsAux line.data.length line.data

/-- Is the character one of the quote characters of the attribute pattern
`r'(\w+)=(["\x27])([^"\x27]*)\2'`? -/
def isQuoteChar (c : Char) : Bool :=
  c = '"' || c = Char.ofNat 39

/-- Maximal leading run of non-quote characters, plus the remainder. -/
def takeNonQuote : List Char → List Char × List Char
  | [] => ([], [])
  | c :: cs =>
    if isQuoteChar c then ([], c :: cs)
    else
      let p := takeNonQuote cs
      (c :: p.1, p.2)

/-- One attribute match: (name, quote character, value). -/
abbrev AttrMatch := String × Char × String

/-- Fuel-driven scanner for the attribute pattern
`r'(\w+)=(["\x27])([^"\x27]*)\2'` (Python `re.findall`): a match needs a word
run, `=`, a quote, a run of non-quote characters and the same quote again;
on failure the scan resumes one character later. -/
def findAttrsAux : Nat → List Char → List AttrMatch
  | 0, _ => []
  | _, [] => []
  | fuel + 1, c :: cs =>
    if isWordChar c then
      let w := takeWord (c :: cs)
      match w.2 with
      | '=' :: q :: rest =>
        if isQuoteChar q then
          let v := takeNonQuote rest
          match v.2 with
          | q2 :: rest2 =>
            if q2 = q then
              (String.mk w.1, q, String.mk v.1) :: findAttrsAux fuel rest2
            else findAttrsAux fuel cs
          | [] => findAttrsAux fuel cs
        else findAttrsAux fuel cs
      | _ => findAttrsAux fuel cs
    else findAttrsAux fuel cs

/-- All matches of the attribute pattern in an attribute substring. -/
def findAttrs (attr_str : String) : List AttrMatch :=
  findAttrsAux attr_str.data.length attr_str.data

/-! ## Python `dict` built by a comprehension

`{name: value for name, _, value in attributes}`: keys keep the position of
their first occurrence, later occurrences overwrite the value. -/

/-- Insert into an insertion-ordered association list, Python-`dict` style. -/
def dictInsert (d : List (String × String)) (k v : String) : List (String × String) :=
  if d.any (fun p => p.1 = k) then
    d.map (fun p => if p.1 = k then (k, v) else p)
  else d ++ [(k, v)]

/-- The dict comprehension over the attribute matches. -/
def buildDict (l : List AttrMatch) : List (String × String) :=
  l.foldl (fun d t => dictInsert d t.1 t.2.2) []

/-- Python `d[k]` / `k in d` combined: the value stored under `k`. -/
def dictGet (d : List (String × String)) (k : String) : Option String :=
  (d.find? (fun p => p.1 = k)).map Prod.snd

/-! ## Error constructors (the f-strings of `validate.py`) -/

def invalidTagErr (line pn : Nat) (tag_name : String) : ValidationError :=
  ⟨line, "INVALID_TAG",
    "Invalid tag " ++ apos ++ "<" ++ tag_name ++ ">" ++ apos ++ " in prompt " ++
      toString pn ++ ". Valid tags are: " ++ joinComma valid_tags⟩

def malformedAttributeErr (line pn : Nat) (attr_str : String) : ValidationError :=
  ⟨line, "MALFORMED_ATTRIBUTE",
    "Malformed attribute syntax in prompt " ++ toString pn ++ ": " ++ inQuotes attr_str⟩

def invalidAttributeErr (line pn : Nat) (attr_name : String) : ValidationError :=
  ⟨line, "INVALID_ATTRIBUTE",
    "Invalid attribute " ++ inQuotes attr_name ++ " in prompt " ++ toString pn ++
      ". Valid attributes are: " ++ joinComma valid_attributes⟩

def duplicateIdErr (line pn : Nat) (id_value : String) : ValidationError :=
  ⟨line, "DUPLICATE_ID",
    "Duplicate ID " ++ inQuotes id_value ++ " in prompt " ++ toString pn⟩

def invalidTypeValueErr (line pn : Nat) (type_value : String) : ValidationError :=
  ⟨line, "INVALID_TYPE_VALUE",
    "Invalid type value " ++ inQuotes type_value ++ " in prompt " ++ toString pn ++
      ". Valid values are: " ++ joinComma valid_type_values⟩

def invalidAttributeUsageErr (line pn : Nat) (attr tag_name : String) : ValidationError :=
  ⟨line, "INVALID_ATTRIBUTE_USAGE",
    "Attribute " ++ inQuotes attr ++ " should only be used in <" ++
      (if attr = "type" then "title" else "quote") ++ "> tags, not <" ++
      tag_name ++ "> in prompt " ++ toString pn⟩

def unmatchedClosingTagErr (line pn : Nat) (tag_name : String) : ValidationError :=
  ⟨line, "UNMATCHED_CLOSING_TAG",
    "Closing tag </" ++ tag_name ++ "> without matching opening tag in prompt " ++
      toString pn⟩

def mismatchedTagErr (line pn : Nat) (closing top : String) (topLine : Nat) : ValidationError :=
  ⟨line, "MISMATCHED_TAG",
    "Closing tag </" ++ closing ++ "> doesn" ++ apos ++ "t match opening tag <" ++
      top ++ "> from line " ++ toString topLine ++ " in prompt " ++ toString pn⟩

def unclosedTagErr (line pn : Nat) (tag_name : String) : ValidationError :=
  ⟨line, "UNCLOSED_TAG",
    "Opening tag <" ++ tag_name ++ "> not closed in prompt " ++ toString pn⟩

/-! ## `SanskritValidator._validate_attributes` -/

/-- The `attr_name not in valid_attributes` loop over the parsed dict. -/
def nameErrors (parsed : List (String × String)) (line pn : Nat) : List ValidationError :=
  parsed.filterMap (fun p =>
    if valid_attributes.contains p.1 then none
    else some (invalidAttributeErr line pn p.1))

/-- The ID-uniqueness check: errors produced and the updated `used_ids`. -/
def idCheck (parsed : List (String × String)) (line pn : Nat) (used_ids : List String) :
    List ValidationError × List String :=
  match dictGet parsed "id" with
  | some id_value =>
    if used_ids.contains id_value then ([duplicateIdErr line pn id_value], used_ids)
    else ([], used_ids ++ [id_value])
  | none => ([], used_ids)

/-- The `type` attribute value check. -/
def typeValueErrors (parsed : List (String × String)) (line pn : Nat) : List ValidationError :=
  match dictGet parsed "type" with
  | some tv =>
    if valid_type_values.contains tv then [] else [invalidTypeValueErr line pn tv]
  | none => []

/-- `SanskritValidator._validate_tag_specific_attributes`. -/
def validate_tag_specific_attributes (tag_name : String) (parsed : List (String × String))
    (line pn : Nat) : List ValidationError :=
  (if tag_name ≠ "quote" then
    (if (dictGet parsed "authorid").isSome then
      [invalidAttributeUsageErr line pn "authorid" tag_name] else []) ++
    (if (dictGet parsed "titleid").isSome then
      [invalidAttributeUsageErr line pn "titleid" tag_name] else [])
  else []) ++
  (if (dictGet parsed "type").isSome ∧ tag_name ≠ "title" then
    [invalidAttributeUsageErr line pn "type" tag_name] else [])

/-- `SanskritValidator._validate_attributes`: the errors appended and the
updated `used_ids` set (modelled as a duplicate-free list in insertion
order; the source only tests membership and adds). -/
def validate_attributes (attr_str : String) (line pn : Nat) (used_ids : List String)
    (tag_name : String) : List ValidationError × List String :=
  let attributes := findAttrs attr_str
  if attributes.isEmpty then
    if attr_str.data.contains '=' then
      ([malformedAttributeErr line pn attr_str], used_ids)
    else ([], used_ids)
  else
    let parsed_attrs := buildDict attributes
    let idc := idCheck parsed_attrs line pn used_ids
    (nameErrors parsed_attrs line pn ++ idc.1 ++ typeValueErrors parsed_attrs line pn ++
      validate_tag_specific_attributes tag_name parsed_attrs line pn, idc.2)

/-! ## `SanskritValidator._validate_prompt`: the per-line tag scan -/

/-- Processing of one tag occurrence in the scan phase. -/
def processTag (line pn : Nat) (acc : List ValidationError × List String) (tag : TagMatch) :
    List ValidationError × List String :=
  if ¬ valid_tags.contains tag.2.1 then
    (acc.1 ++ [invalidTagErr line pn tag.2.1], acc.2)
  else if tag.1 then acc
  else if pyStrip tag.2.2 ≠ "" then
    let r := validate_attributes (pyStrip tag.2.2) line pn acc.2 tag.2.1
    (acc.1 ++ r.1, r.2)
  else acc

/-- The `for line_offset, line in enumerate(lines)` loop of the scan phase. -/
def scanLines : List String → Nat → Nat → List ValidationError × List String →
    List ValidationError × List String
  | [], _, _, acc => acc
  | l :: rest, cur, pn, acc =>
    scanLines rest (cur + 1) pn ((findTags l).foldl (processTag cur pn) acc)

/-! ## `SanskritValidator._validate_xml_structure`: the tag-stack pass -/

/-- The tag stack: head is the top (most recently opened tag). -/
abbrev TagStack := List (String × Nat)

/-- One transition of the nesting state machine. -/
def structStep (pn cur : Nat) : List ValidationError × TagStack → TagMatch →
    List ValidationError × TagStack
  | (errs, stack), tag =>
    if ¬ valid_tags.contains tag.2.1 then (errs, stack)
    else if tag.1 then
      match stack with
      | [] => (errs ++ [unmatchedClosingTagErr cur pn tag.2.1], [])
      | (top, topLine) :: restStack =>
        if top ≠ tag.2.1 then
          (errs ++ [mismatchedTagErr cur pn tag.2.1 top topLine], (top, topLine) :: restStack)
        else (errs, restStack)
    else (errs, (tag.2.1, cur) :: stack)

/-- The per-line loop of the nesting pass. -/
def structLines (pn : Nat) : List String → Nat → List ValidationError × TagStack →
    List ValidationError × TagStack
  | [], _, st => st
  | l :: rest, cur, st =>
    structLines pn rest (cur + 1) ((findTags l).foldl (structStep pn cur) st)

/-- `SanskritValidator._validate_xml_structure`.  The final Python loop
`for tag_name, line_num in tag_stack` walks the list from its bottom
(oldest entry) upward, which is the reverse of our head-is-top stack. -/
def validate_xml_structure (prompt_content : String) (start_line pn : Nat) :
    List ValidationError :=
  let r := structLines pn (pySplitLines prompt_content) start_line ([], [])
  r.1 ++ r.2.reverse.map (fun p => unclosedTagErr p.2 pn p.1)

/-- `SanskritValidator._validate_prompt`: scan-phase errors followed by the
nesting-pass errors; `used_ids` starts empty for every prompt. -/
def validate_prompt (prompt_content : String) (start_line pn : Nat) : List ValidationError :=
  (scanLines (pySplitLines prompt_content) start_line pn ([], [])).1 ++
    validate_xml_structure prompt_content start_line pn

/-! ## `SanskritValidator._split_into_prompts` and `validate_file` -/

/-- The accumulation loop of `_split_into_prompts`; note that a span is
flushed whenever the `current_prompt` *list of lines* is nonempty, whatever
their content. -/
def splitLoop : List String → Nat → List String → Nat → List (String × Nat) →
    List (String × Nat)
  | [], _, current, start, acc =>
    if current.isEmpty then acc else acc ++ [(joinLines current, start)]
  | line :: rest, lineNum, current, start, acc =>
    if pyStrip line = "---" then
      let acc2 := if current.isEmpty then acc else acc ++ [(joinLines current, start)]
      splitLoop rest (lineNum + 1) [] (lineNum + 1) acc2
    else splitLoop rest (lineNum + 1) (current ++ [line]) start acc

/-- `SanskritValidator._split_into_prompts`. -/
def split_into_prompts (content : String) : List (String × Nat) :=
  splitLoop (pySplitLines content) 1 [] 1 []

/-- `for prompt_idx, (...) in enumerate(prompts): _validate_prompt(..., prompt_idx + 1)`. -/
def validatePromptsLoop : List (String × Nat) → Nat → List ValidationError
  | [], _ => []
  | p :: rest, idx => validate_prompt p.1 p.2 (idx + 1) ++ validatePromptsLoop rest (idx + 1)

/-- `SanskritValidator.validate_file` after a successful read of the content. -/
def validateContent (content : String) : List ValidationError :=
  validatePromptsLoop (split_into_prompts content) 0

/-- A file on disk, as far as the scripts can observe it: its bytes decode as
UTF-8, or they do not (in which case latin-1 decoding, which never fails,
yields `latin1`), or the file is absent. -/
inductive FileBytes where
  | utf8 (content : String)
  | nonUtf8 (latin1 : String)
  | missing (filename : String)

/-- `SanskritValidator.validate_file` including its `try/except` read:
`UnicodeDecodeError` and `FileNotFoundError` short-circuit to a single
terminal error, with no latin-1 fallback. -/
def validate_file : FileBytes → List ValidationError
  | .missing fn => [⟨0, "FILE_ERROR", "File not found: " ++ fn⟩]
  | .nonUtf8 _ => [⟨0, "ENCODING_ERROR", "File encoding error - expected UTF-8"⟩]
  | .utf8 c => validateContent c

/-- The mutable state of a `SanskritValidator` instance: its `errors` list. -/
structure ValidatorState where
  errors : List ValidationError
deriving DecidableEq

/-- One call of the `validate_file` method on an instance: the method first
executes `self.errors = []`, then appends the findings. -/
def validateFileMethod (v : ValidatorState) (f : FileBytes) : ValidatorState :=
  let reset : ValidatorState := { v with errors := [] }
  { reset with errors := reset.errors ++ validate_file f }

/-- How many errors of the given kind a run produced. -/
def countKind (k : String) (errs : List ValidationError) : Nat :=
  errs.countP (fun e => e.error_type = k)

/-! ## `prompt_counter.py`: `analyze_samples_in_file` -/

/-- Case-insensitive prefix test (the letters of the pattern are lowercase). -/
def startsWithCI : List Char → List Char → Bool
  | [], _ => true
  | _ :: _, [] => false
  | p :: ps, c :: cs => (c.toLower = p) && startsWithCI ps cs

/-- `re.compile(r'<quote[^>]*>', re.IGNORECASE).search`: some position starts
`<quote` (case-insensitively) with a later `>` to close the match. -/
def quoteSearchFrom : List Char → Bool
  | [] => false
  | c :: cs =>
    (startsWithCI "<quote".data (c :: cs) && ((c :: cs).drop 6).contains '>') ||
      quoteSearchFrom cs

/-- Does the sample text contain a `<quote ...>` tag? -/
def hasQuoteTag (s : String) : Bool :=
  quoteSearchFrom s.data

/-- Processing of one accumulated sample span in `analyze_samples_in_file`:
counted only when some line is non-whitespace.  The triple is
(total_samples, samples_with_quotes, samples_without_quotes). -/
def processSample (current : List String) (acc : Nat × Nat × Nat) : Nat × Nat × Nat :=
  if current.any (fun l => pyStrip l ≠ "") then
    if hasQuoteTag (joinLines current) then (acc.1 + 1, acc.2.1 + 1, acc.2.2)
    else (acc.1 + 1, acc.2.1, acc.2.2 + 1)
  else acc

/-- The line loop of `analyze_samples_in_file`, with the final-span flush. -/
def pcLoop : List String → List String → Nat × Nat × Nat → Nat × Nat × Nat
  | [], current, acc => processSample current acc
  | l :: rest, current, acc =>
    if pyStrip l = "---" then pcLoop rest [] (processSample current acc)
    else pcLoop rest (current ++ [l]) acc

/-- `prompt_counter.analyze_samples_in_file` on decoded content. -/
def analyze_samples_in_file (content : String) : Nat × Nat × Nat :=
  pcLoop (pySplitLines content) [] (0, 0, 0)

/-- `analyze_samples_in_file` with its `try/except`: both `FileNotFoundError`
and `UnicodeDecodeError` short-circuit to `(0, 0, 0)` - no fallback. -/
def analyzeSamplesInFileIO : FileBytes → Nat × Nat × Nat
  | .utf8 c => analyze_samples_in_file c
  | .nonUtf8 _ => (0, 0, 0)
  | .missing _ => (0, 0, 0)

/-! ## `char_counter.py`: `analyze_file` -/

namespace CharCounter

/-- The `while i < len(lines) and lines[i].strip() == ''` skip, tracking the
absolute index. -/
def skipEmpty : List String → Nat → List String × Nat
  | [], i => ([], i)
  | l :: rest, i => if pyStrip l = "" then skipEmpty rest (i + 1) else (l :: rest, i)

/-- The collection loop: rstripped lines up to the next separator; also
returns the remaining lines (headed by that separator, if any) and the
absolute index reached. -/
def gather : List String → Nat → List String × List String × Nat
  | [], i => ([], [], i)
  | l :: rest, i =>
    if pyStrip l = "---" then ([], l :: rest, i)
    else
      let r := gather rest (i + 1)
      (pyRstripNl l :: r.1, r.2.1, r.2.2)

/-- `while sample_content and sample_content[-1].strip() == '': pop()`. -/
def dropTrailingBlank (l : List String) : List String :=
  (l.reverse.dropWhile (fun s => pyStrip s = "")).reverse

/-- The record, if any, produced for one collected sample span: the
`if sample_content:` block with its trailing-blank pops and the 2000-character
threshold. -/
def oversizedRec (sn1 : Nat) (content : List String) (cs : Nat) :
    List (Nat × Nat × Nat × Nat) :=
  if content ≠ [] then
    let content2 := dropTrailingBlank content
    if content2 ≠ [] then
      let cc := (joinLines content2).length
      if cc > 2000 then [(sn1, cc, cs + 1, cs + content2.length)] else []
    else []
  else []

/-- The outer `while i < len(lines)` loop, fuel-driven (any fuel above the
number of remaining lines is enough).  Returns the `oversized_samples`
records `(sample_num, char_count, start_line, end_line)` in discovery order
together with the final value of the `sample_num` counter. -/
def loop : Nat → List String → Nat → Nat → List (Nat × Nat × Nat × Nat) × Nat
  | 0, _, _, sn => ([], sn)
  | _ + 1, [], _, sn => ([], sn)
  | fuel + 1, l :: rest, i, sn =>
    if pyStrip l = "---" then
      let sk := skipEmpty rest (i + 1)
      let g := gather sk.1 sk.2
      let t := loop fuel g.2.1 g.2.2 (sn + 1)
      (oversizedRec (sn + 1) g.1 sk.2 ++ t.1, t.2)
    else loop fuel rest (i + 1) sn

/-- `char_counter.analyze_file` on decoded content: the returned
`oversized_samples` list, plus the final `sample_num` counter. -/
def run (content : String) : List (Nat × Nat × Nat × Nat) × Nat :=
  let lines := pyReadlines content
  loop (lines.length + 1) lines 0 0

/-- The value `char_counter.analyze_file` actually returns. -/
def analyze_file (content : String) : List (Nat × Nat × Nat × Nat) :=
  (run content).1

/-- `char_counter.analyze_file` with its `try/except`: decode failure falls
back to latin-1 and the analysis proceeds on that decoding. -/
def analyzeFileIO : FileBytes → List (Nat × Nat × Nat × Nat)
  | .utf8 c => analyze_file c
  | .nonUtf8 latin1 => analyze_file latin1
  | .missing _ => []

end CharCounter

/-! ## `check_duplicates.py`: `analyze_file` -/

namespace CheckDuplicates

/-- `re.search(r'\b\w+', s)`: the first maximal word-character run, lowercased
(`first_word_match.group().lower()`). -/
def firstWordMatch : List Char → Option String
  | [] => none
  | c :: cs =>
    if isWordChar c then some (String.mk ((c :: (takeWord cs).1).map Char.toLower))
    else firstWordMatch cs

/-- The body of `if i < len(lines):` - the record, if any, taken from the
first content line of a sample. -/
def recordOf (l : String) (sn ln : Nat) : List (String × Nat × Nat) :=
  if pyStrip l ≠ "" then
    match firstWordMatch (pyStrip l).data with
    | some w => [(w, sn, ln)]
    | none => []
  else []

/-- The outer `while i < len(lines)` loop of `check_duplicates.analyze_file`,
fuel-driven; produces the `(first_word, sample_num, exact_line_num)`
occurrences in discovery order.  After the inner block the outer `i += 1`
skips past the examined content line. -/
def loop : Nat → List String → Nat → Nat → List (String × Nat × Nat)
  | 0, _, _, _ => []
  | _ + 1, [], _, _ => []
  | fuel + 1, l :: rest, i, sn =>
    if pyStrip l = "---" then
      match CharCounter.skipEmpty rest (i + 1) with
      | ([], _) => []
      | (c :: rem2, j) => recordOf c (sn + 1) (j + 1) ++ loop fuel rem2 (j + 1) (sn + 1)
    else loop fuel rest (i + 1) sn

/-- The `defaultdict(list)` keyed by first word: insertion-ordered keys, each
holding its occurrence list in append order. -/
def dictAppend (d : List (String × List (Nat × Nat))) (k : String) (v : Nat × Nat) :
    List (String × List (Nat × Nat)) :=
  if d.any (fun p => p.1 = k) then
    d.map (fun p => if p.1 = k then (p.1, p.2 ++ [v]) else p)
  else d ++ [(k, [v])]

/-- Build the `first_words` dictionary from the occurrence sequence. -/
def groupByWord (occs : List (String × Nat × Nat)) : List (String × List (Nat × Nat)) :=
  occs.foldl (fun d o => dictAppend d o.1 o.2) []

/-- The flat occurrence sequence of `check_duplicates.analyze_file`. -/
def occurrences (content : String) : List (String × Nat × Nat) :=
  let lines := pyReadlines content
  loop (lines.length + 1) lines 0 0

/-- `check_duplicates.analyze_file` on decoded content: the `first_words`
dictionary. -/
def analyze_file (content : String) : List (String × List (Nat × Nat)) :=
  groupByWord (occurrences content)

/-- `check_duplicates.analyze_file` with its `try/except`: decode failure
falls back to latin-1 and the analysis proceeds on that decoding. -/
def analyzeFileIO : FileBytes → List (String × List (Nat × Nat))
  | .utf8 c => analyze_file c
  | .nonUtf8 latin1 => analyze_file latin1
  | .missing _ => []

end CheckDuplicates

/-! ## Helper lemmas -/

theorem countKind_append (k : String) (a b : List ValidationError) :
    countKind k (a ++ b) = countKind k a + countKind k b := by
  simp [countKind, List.countP_append]

theorem pySplitLines_ne_nil (s : String) : pySplitLines s ≠ [] := by
  simp only [pySplitLines, ne_eq, List.map_eq_nil_iff]
  exact splitNl_ne_nil s.data

/-! ## C6 -/

/-- C6: a sample whose content is `<author>x</quote>` yields exactly one
`MISMATCHED_TAG` error, raised when the closing tag's name differs from the
tag on top of the stack; the full error list shows that its message
references the top-of-stack tag (`author`) and its opening line (1). -/
theorem C6_theorem :
    countKind "MISMATCHED_TAG" (validateContent "<author>x</quote>") = 1 ∧
    validateContent "<author>x</quote>" =
      [mismatchedTagErr 1 1 "quote" "author" 1, unclosedTagErr 1 1 "author"] := by
  constructor
  · decide
  · decide

/-! ## C7 -/

/-- C7 counterexample: on a file whose bytes are not valid UTF-8,
`SanskritValidator.validate_file` does not fall back to a legacy encoding: it
reports a single `ENCODING_ERROR` and aborts that file's analysis (the
invalid tag that a fallback analysis would flag is never reported). -/
theorem C7_counterexample :
    validate_file (FileBytes.nonUtf8 "<foo>") =
      [⟨0, "ENCODING_ERROR", "File encoding error - expected UTF-8"⟩] ∧
    validateContent "<foo>" ≠ [] := by
  constructor
  · rfl
  · decide

/-- C7 (amended): on UTF-8 decode failure, `char_counter.analyze_file` and
`check_duplicates.analyze_file` fall back to latin-1 and proceed with the
analysis of the latin-1 decoding, but `validate.py` reports `ENCODING_ERROR`
and aborts that file's analysis. -/
theorem C7_amended_theorem (latin1 : String) :
    CharCounter.analyzeFileIO (FileBytes.nonUtf8 latin1) = CharCounter.analyze_file latin1 ∧
    CheckDuplicates.analyzeFileIO (FileBytes.nonUtf8 latin1) =
      CheckDuplicates.analyze_file latin1 ∧
    validate_file (FileBytes.nonUtf8 latin1) =
      [⟨0, "ENCODING_ERROR", "File encoding error - expected UTF-8"⟩] :=
  ⟨rfl, rfl, rfl⟩

/-! ## C8 -/

/-- C8: the validator is deterministic and idempotent: `validate_file` first
resets `self.errors` to `[]`, so the error sequence produced for a given file
content is the same whatever the instance state was - in particular two
successive runs on the same content return identical error sequences. -/
theorem C8_theorem (v w : ValidatorState) (f : FileBytes) :
    (validateFileMethod v f).errors = (validateFileMethod w f).errors ∧
    (validateFileMethod (validateFileMethod v f) f).errors =
      (validateFileMethod v f).errors :=
  ⟨rfl, rfl⟩

/-! ## C1 -/

theorem processSample_blank (current : List String) (acc : Nat × Nat × Nat)
    (hc : ∀ l ∈ current, pyStrip l = "") : processSample current acc = acc := by
  unfold processSample
  rw [if_neg]
  simp only [List.any_eq_true, decide_eq_true_eq, not_exists]
  intro l hl
  exact hl.2 (hc l hl.1)

theorem pcLoop_blank (lines : List String) :
    ∀ current acc, (∀ l ∈ lines, pyStrip l = "" ∨ pyStrip l = "---") →
    (∀ l ∈ current, pyStrip l = "") → pcLoop lines current acc = acc := by
  induction lines with
  | nil =>
    intro current acc _ hc
    simp [pcLoop, processSample_blank current acc hc]
  | cons l rest ih =>
    intro current acc hl hc
    rw [pcLoop]
    split
    · rw [processSample_blank current acc hc]
      exact ih [] acc (fun x hx => hl x (List.mem_cons_of_mem l hx)) (by simp)
    · refine ih (current ++ [l]) acc (fun x hx => hl x (List.mem_cons_of_mem l hx)) ?_
      intro x hx
      rcases List.mem_append.mp hx with h | h
      · exact hc x h
      · rcases List.mem_singleton.mp h with rfl
        rcases hl x (List.mem_cons_self x rest) with h2 | h2
        · exact h2
        · exact absurd h2 (by assumption)

/-- C1 counterexample: the sample splitter of `validate.py` does emit
all-whitespace spans.  On the input consisting of a single blank line, its
`_split_into_prompts` produces one sample (the whitespace-only span), not
zero. -/
theorem C1_counterexample :
    split_into_prompts " " = [(" ", 1)] ∧ split_into_prompts " " ≠ [] := by
  constructor
  · decide
  · decide

/-- C1 (amended): `prompt_counter.analyze_samples_in_file` counts zero samples
for every input consisting solely of `---` lines and blank lines (it emits a
sample only when some line is non-whitespace), but `validate.py`'s
`_split_into_prompts` emits every span whose list of lines is nonempty,
including all-whitespace spans, so the same blank input yields a
whitespace-only prompt there. -/
theorem C1_amended_theorem (content : String)
    (h : ∀ l ∈ pySplitLines content, pyStrip l = "" ∨ pyStrip l = "---") :
    analyze_samples_in_file content = (0, 0, 0) ∧
    split_into_prompts " \n---" = [(" ", 1)] := by
  refine ⟨?_, by decide⟩
  exact pcLoop_blank (pySplitLines content) [] (0, 0, 0) h (by simp)

/-- C1 witness: the amended theorem applied to the concrete blank-and-dash
input `"---\n \n"`. -/
theorem C1_witness :
    (∀ l ∈ pySplitLines "---\n \n", pyStrip l = "" ∨ pyStrip l = "---") ∧
    analyze_samples_in_file "---\n \n" = (0, 0, 0) :=
  ⟨by decide, ( C1_amended_theorem "---\n \n" (by decide)).1⟩

/-! ## C2 -/

theorem splitLoop_no_sep (lines : List String) :
    ∀ lineNum current start acc, (∀ l ∈ lines, pyStrip l ≠ "---") →
    splitLoop lines lineNum current start acc =
      if (current ++ lines).isEmpty then acc
      else acc ++ [(joinLines (current ++ lines), start)] := by
  induction lines with
  | nil =>
    intro lineNum current start acc _
    simp [splitLoop]
  | cons l rest ih =>
    intro lineNum current start acc hl
    rw [splitLoop, if_neg (hl l (List.mem_cons_self l rest))]
    rw [ih (lineNum + 1) (current ++ [l]) start acc
      (fun x hx => hl x (List.mem_cons_of_mem l hx))]
    simp

theorem ccLoop_no_sep : ∀ (fuel : Nat) (lines : List String) (i sn : Nat),
    (∀ l ∈ lines, pyStrip l ≠ "---") → CharCounter.loop fuel lines i sn = ([], sn) := by
  intro fuel
  induction fuel with
  | zero => intro lines i sn _; rfl
  | succ fuel ih =>
    intro lines i sn hl
    cases lines with
    | nil => rfl
    | cons l rest =>
      rw [CharCounter.loop, if_neg (hl l (List.mem_cons_self l rest))]
      exact ih rest (i + 1) sn (fun x hx => hl x (List.mem_cons_of_mem l hx))

theorem cdLoop_no_sep : ∀ (fuel : Nat) (lines : List String) (i sn : Nat),
    (∀ l ∈ lines, pyStrip l ≠ "---") → CheckDuplicates.loop fuel lines i sn = [] := by
  intro fuel
  induction fuel with
  | zero => intro lines i sn _; rfl
  | succ fuel ih =>
    intro lines i sn hl
    cases lines with
    | nil => rfl
    | cons l rest =>
      rw [CheckDuplicates.loop, if_neg (hl l (List.mem_cons_self l rest))]
      exact ih rest (i + 1) sn (fun x hx => hl x (List.mem_cons_of_mem l hx))

/-- C2 counterexample: on the input `"hello"` - non-empty content, no `---`
line - `char_counter.analyze_file` and `check_duplicates.analyze_file`
produce zero samples (their loops only recognise a sample after a `---`
separator line), not the one whole-file sample the claim demands of every
sample-splitting utility. -/
theorem C2_counterexample :
    (∀ l ∈ pySplitLines "hello", pyStrip l ≠ "---") ∧ pyStrip "hello" ≠ "" ∧
    CharCounter.run "hello" = ([], 0) ∧
    CheckDuplicates.analyze_file "hello" = [] := by
  refine ⟨by decide, by decide, by decide, by decide⟩

/-- C2 (amended): for input with no `---` line, `validate.py`'s
`_split_into_prompts` produces exactly one sample spanning the whole file,
while `char_counter.analyze_file` and `check_duplicates.analyze_file`
recognise no sample at all (their `sample_num` counter stays 0 and no record
is produced): only the validator's splitter treats a delimiter-free file as
one sample. -/
theorem C2_amended_theorem (content : String)
    (h1 : ∀ l ∈ pySplitLines content, pyStrip l ≠ "---")
    (h2 : ∀ l ∈ pyReadlines content, pyStrip l ≠ "---")
    (h3 : pyStrip content ≠ "") :
    split_into_prompts content = [(content, 1)] ∧
    CharCounter.run content = ([], 0) ∧
    CheckDuplicates.occurrences content = [] := by
  refine ⟨?_, ?_, ?_⟩
  · rw [split_into_prompts, splitLoop_no_sep (pySplitLines content) 1 [] 1 [] h1]
    rw [if_neg (by simp [pySplitLines_ne_nil content])]
    simp [joinLines_pySplitLines]
  · exact ccLoop_no_sep _ _ _ _ h2
  · exact cdLoop_no_sep _ _ _ _ h2

/-- C2 witness: the amended theorem applied to the concrete input `"hello"`. -/
theorem C2_witness :
    (∀ l ∈ pySplitLines "hello", pyStrip l ≠ "---") ∧
    (∀ l ∈ pyReadlines "hello", pyStrip l ≠ "---") ∧ pyStrip "hello" ≠ "" ∧
    split_into_prompts "hello" = [("hello", 1)] :=
  ⟨by decide, by decide, by decide,
    ( C2_amended_theorem "hello" (by decide) (by decide) (by decide)).1⟩

/-! ## C10 -/

theorem dictInsert_keys (d : List (String × String)) (k v : String) :
    (dictInsert d k v).map Prod.fst =
      if d.any (fun p => p.1 = k) then d.map Prod.fst else d.map Prod.fst ++ [k] := by
  unfold dictInsert
  split
  · simp only [List.map_map, if_pos (by assumption)]
    congr 1
    funext p
    by_cases hp : p.1 = k
    · simp [hp]
    · simp [hp]
  · simp [if_neg (by assumption)]

theorem dictInsert_keys_nodup (d : List (String × String)) (k v : String)
    (h : (d.map Prod.fst).Nodup) : ((dictInsert d k v).map Prod.fst).Nodup := by
  rw [dictInsert_keys]
  split
  · exact h
  · rw [List.nodup_append]
    refine ⟨h, List.nodup_singleton k, ?_⟩
    intro a ha hb
    rcases List.mem_singleton.mp hb with rfl
    rcases List.mem_map.mp ha with ⟨p, hp, hpk⟩
    have : d.any (fun p => p.1 = a) = true :=
      List.any_eq_true.mpr ⟨p, hp, by simp [hpk]⟩
    simp_all

theorem buildDict_keys_nodup (l : List AttrMatch) : ((buildDict l).map Prod.fst).Nodup := by
  suffices h : ∀ d, (d.map Prod.fst).Nodup →
      ((l.foldl (fun d t => dictInsert d t.1 t.2.2) d).map Prod.fst).Nodup by
    exact h [] (by simp)
  induction l with
  | nil => intro d hd; exact hd
  | cons t rest ih =>
    intro d hd
    exact ih (dictInsert d t.1 t.2.2) (dictInsert_keys_nodup d t.1 t.2.2 hd)

theorem dictGet_dictInsert (d : List (String × String)) (k v : String) :
    dictGet (dictInsert d k v) k = some v := by
  unfold dictInsert
  split
  case isTrue hmem =>
    induction d with
    | nil => simp at hmem
    | cons p rest ih =>
      by_cases hp : p.1 = k
      · simp [dictGet, List.find?, hp]
      · simp only [List.map_cons, if_neg hp]
        have hmem2 : rest.any (fun p => p.1 = k) = true := by
          rcases List.any_eq_true.mp hmem with ⟨q, hq, hqk⟩
          rcases List.mem_cons.mp hq with rfl | hq2
          · simp at hqk; exact absurd hqk hp
          · exact List.any_eq_true.mpr ⟨q, hq2, hqk⟩
        have := ih hmem2
        simpa [dictGet, List.find?, hp] using this
  case isFalse hmem =>
    induction d with
    | nil => simp [dictGet, List.find?]
    | cons p rest ih =>
      have hp : ¬ p.1 = k := by
        intro hp
        exact hmem (List.any_eq_true.mpr ⟨p, List.mem_cons_self p rest, by simp [hp]⟩)
      have hmem2 : ¬ rest.any (fun p => p.1 = k) = true := by
        intro h2
        rcases List.any_eq_true.mp h2 with ⟨q, hq, hqk⟩
        exact hmem (List.any_eq_true.mpr ⟨q, List.mem_cons_of_mem p hq, hqk⟩)
      have := ih hmem2
      simpa [dictGet, List.find?, hp] using this

theorem buildDict_append_last (l : List AttrMatch) (k v : String) (q : Char) :
    dictGet (buildDict (l ++ [(k, q, v)])) k = some v := by
  unfold buildDict
  rw [List.foldl_append]
  exact dictGet_dictInsert _ k v

/-- C10: the dict comprehension `{name: value for name, _, value in attributes}`
collapses repeated attribute names to a single entry keeping the last value
(keys of the parsed dict are duplicate-free, and a trailing repetition of a
name wins), so repeated attributes inside one tag are checked only once: the
sample `<quote id="a" id="a">x</quote>` yields no error at all, in particular
no `DUPLICATE_ID`. -/
theorem C10_theorem (l : List AttrMatch) (k v : String) (q : Char) :
    ((buildDict l).map Prod.fst).Nodup ∧
    dictGet (buildDict (l ++ [(k, q, v)])) k = some v ∧
    validateContent "<quote id=\"a\" id=\"a\">x</quote>" = [] := by
  refine ⟨buildDict_keys_nodup l, buildDict_append_last l k v q, by decide⟩

/-! ## C4 -/

theorem nameErrors_no_dup (parsed : List (String × String)) (line pn : Nat) :
    countKind "DUPLICATE_ID" (nameErrors parsed line pn) = 0 := by
  simp only [countKind, List.countP_eq_zero]
  intro e he
  rcases List.mem_filterMap.mp he with ⟨p, _, hpe⟩
  by_cases hc : valid_attributes.contains p.1
  · rw [if_pos hc] at hpe
    cases hpe
  · rw [if_neg hc] at hpe
    rcases Option.some.inj hpe with rfl
    simp [invalidAttributeErr]

theorem typeValueErrors_no_dup (parsed : List (String × String)) (line pn : Nat) :
    countKind "DUPLICATE_ID" (typeValueErrors parsed line pn) = 0 := by
  unfold typeValueErrors
  cases dictGet parsed "type" with
  | none => rfl
  | some tv =>
    show countKind "DUPLICATE_ID"
      (if valid_type_values.contains tv = true then []
       else [invalidTypeValueErr line pn tv]) = 0
    by_cases h : valid_type_values.contains tv = true
    · rw [if_pos h]
      rfl
    · rw [if_neg h]
      simp [countKind, List.countP_cons, invalidTypeValueErr]

theorem tagSpecific_no_dup (tag_name : String) (parsed : List (String × String))
    (line pn : Nat) :
    countKind "DUPLICATE_ID" (validate_tag_specific_attributes tag_name parsed line pn) = 0 := by
  unfold validate_tag_specific_attributes
  split_ifs <;>
    simp [countKind, List.countP_append, List.countP_cons, invalidAttributeUsageErr]

theorem idCheck_of_some (parsed : List (String × String)) (line pn : Nat)
    (used_ids : List String) (v : String) (h : dictGet parsed "id" = some v) :
    idCheck parsed line pn used_ids =
      if used_ids.contains v then ([duplicateIdErr line pn v], used_ids)
      else ([], used_ids ++ [v]) := by
  unfold idCheck
  rw [h]

theorem validate_attributes_eq (attr_str : String) (line pn : Nat)
    (used_ids : List String) (tag_name : String)
    (hne : (findAttrs attr_str).isEmpty = false) :
    validate_attributes attr_str line pn used_ids tag_name =
      (nameErrors (buildDict (findAttrs attr_str)) line pn ++
        (idCheck (buildDict (findAttrs attr_str)) line pn used_ids).1 ++
        typeValueErrors (buildDict (findAttrs attr_str)) line pn ++
        validate_tag_specific_attributes tag_name (buildDict (findAttrs attr_str)) line pn,
       (idCheck (buildDict (findAttrs attr_str)) line pn used_ids).2) := by
  simp only [validate_attributes, hne]
  rfl

/-- C4: the `used_ids` set is per-sample (it starts empty in every
`_validate_prompt` call), and each tag occurrence whose `id` value is already
in `used_ids` appends exactly one `DUPLICATE_ID` error while leaving
`used_ids` unchanged; an unseen value appends no error and is recorded.
Concretely, `<quote id="a">x</quote><quote id="a">y</quote>` in one sample
yields exactly one `DUPLICATE_ID`, while the same two tags in two samples
separated by `---` yield none (ids never carry across sample boundaries). -/
theorem C4_theorem (attr_str : String) (line pn : Nat) (used_ids : List String)
    (tag_name v : String)
    (hid : dictGet (buildDict (findAttrs attr_str)) "id" = some v) :
    ((used_ids.contains v = true →
      countKind "DUPLICATE_ID" (validate_attributes attr_str line pn used_ids tag_name).1 = 1 ∧
      (validate_attributes attr_str line pn used_ids tag_name).2 = used_ids) ∧
     (used_ids.contains v = false →
      countKind "DUPLICATE_ID" (validate_attributes attr_str line pn used_ids tag_name).1 = 0 ∧
      (validate_attributes attr_str line pn used_ids tag_name).2 = used_ids ++ [v])) ∧
    countKind "DUPLICATE_ID"
      (validateContent "<quote id=\"a\">x</quote><quote id=\"a\">y</quote>") = 1 ∧
    countKind "DUPLICATE_ID"
      (validateContent "<quote id=\"a\">x</quote>\n---\n<quote id=\"a\">y</quote>") = 0 := by
  have hne : (findAttrs attr_str).isEmpty = false := by
    rcases h0 : findAttrs attr_str with _ | ⟨a, l⟩
    · rw [h0] at hid
      simp [buildDict, dictGet, List.find?] at hid
    · simp
  refine ⟨⟨?_, ?_⟩, by decide, by decide⟩
  · intro hmem
    rw [validate_attributes_eq attr_str line pn used_ids tag_name hne,
      idCheck_of_some _ line pn used_ids v hid, if_pos hmem]
    refine ⟨?_, rfl⟩
    simp only [countKind_append, nameErrors_no_dup, typeValueErrors_no_dup, tagSpecific_no_dup]
    simp [countKind, List.countP_cons, duplicateIdErr]
  · intro hmem
    rw [validate_attributes_eq attr_str line pn used_ids tag_name hne,
      idCheck_of_some _ line pn used_ids v hid, if_neg (by simpa using hmem)]
    refine ⟨?_, rfl⟩
    simp only [countKind_append, nameErrors_no_dup, typeValueErrors_no_dup, tagSpecific_no_dup]
    simp [countKind]

/-- C4 witness: the general part applied at a concrete call of
`_validate_attributes` - attribute string `id="a"`, with `"a"` already in
`used_ids`. -/
theorem C4_witness :
    dictGet (buildDict (findAttrs "id=\"a\"")) "id" = some "a" ∧
    ["a"].contains "a" = true ∧
    countKind "DUPLICATE_ID" (validate_attributes "id=\"a\"" 1 1 ["a"] "quote").1 = 1 :=
  ⟨by decide, by decide,
    ((( C4_theorem "id=\"a\"" 1 1 ["a"] "quote" "a" (by decide)).1).1 (by decide)).1⟩

/-! ## C9 -/

/-- C9: when a closing tag's name differs from the top of the stack, the
`MISMATCHED_TAG` branch leaves the stack unchanged - the open tag is not
popped and the closing tag is not consumed - so the mismatched open tag also
yields an `UNCLOSED_TAG` at the end of the sample: `<author>x</quote>`
produces exactly one `MISMATCHED_TAG` and exactly one `UNCLOSED_TAG`. -/
theorem C9_theorem (pn cur : Nat) (errs : List ValidationError) (top : String × Nat)
    (stack : TagStack) (tag_name attrs : String)
    (hvalid : valid_tags.contains tag_name = true) (hne : top.1 ≠ tag_name) :
    (structStep pn cur (errs, top :: stack) (true, tag_name, attrs)).2 = top :: stack ∧
    (structStep pn cur (errs, top :: stack) (true, tag_name, attrs)).1 =
      errs ++ [mismatchedTagErr cur pn tag_name top.1 top.2] ∧
    countKind "MISMATCHED_TAG" (validateContent "<author>x</quote>") = 1 ∧
    countKind "UNCLOSED_TAG" (validateContent "<author>x</quote>") = 1 := by
  obtain ⟨t, ln⟩ := top
  simp only [ne_eq] at hne
  have hmem : tag_name ∈ valid_tags := by simpa using hvalid
  refine ⟨?_, ?_, by decide, by decide⟩ <;>
    simp [structStep, hmem, hne]

/-- C9 witness: the general part applied at a concrete mismatched-closing-tag
transition (`</quote>` arriving while `<author>` from line 1 is on top). -/
theorem C9_witness :
    valid_tags.contains "quote" = true ∧ ("author", 1).1 ≠ "quote" ∧
    (structStep 1 1 ([], [("author", 1)]) (true, "quote", "")).2 = [("author", 1)] :=
  ⟨by decide, by decide,
    (C9_theorem 1 1 [] ("author", 1) [] "quote" "" (by decide) (by decide)).1⟩

/-! ## C5 -/

/-- C5 counterexample: a sample opening `<quote>` on line 1 and `<author>` on
line 2 and closing neither gets its `UNCLOSED_TAG` errors in *opening* order
(line 1 first), i.e. the least-recently-opened tag first - not
most-recently-opened first, which would put `<author>` (line 2) first.  The
final loop of `_validate_xml_structure` walks the Python list from index 0,
the bottom of the stack. -/
theorem C5_counterexample :
    validateContent "<quote>\n<author>" =
      [unclosedTagErr 1 1 "quote", unclosedTagErr 2 1 "author"] ∧
    (validateContent "<quote>\n<author>").map ValidationError.line_number = [1, 2] := by
  constructor
  · decide
  · decide

/-- No error in the list is an `UNCLOSED_TAG`. -/
def noUnclosedIn (errs : List ValidationError) : Prop :=
  ∀ e ∈ errs, e.error_type ≠ "UNCLOSED_TAG"

/-- Opening line numbers do not increase from the top of the stack down. -/
def stackDescending (stack : TagStack) : Prop :=
  List.Chain' (fun a b : String × Nat => b.2 ≤ a.2) stack

/-- Does the error record an `UNCLOSED_TAG`? -/
def isUnclosedKind (e : ValidationError) : Bool :=
  e.error_type = "UNCLOSED_TAG"

theorem structStep_eq_invalid (pn cur : Nat) (errs : List ValidationError)
    (stack : TagStack) (tag : TagMatch) (h : ¬ tag.2.1 ∈ valid_tags) :
    structStep pn cur (errs, stack) tag = (errs, stack) := by
  obtain ⟨b, n, a⟩ := tag
  simp only at h
  cases stack with
  | nil => simp [structStep, h]
  | cons tp rest => obtain ⟨t, ln⟩ := tp; simp [structStep, h]

theorem structStep_eq_push (pn cur : Nat) (errs : List ValidationError)
    (stack : TagStack) (n a : String) (h : n ∈ valid_tags) :
    structStep pn cur (errs, stack) (false, n, a) = (errs, (n, cur) :: stack) := by
  cases stack with
  | nil => simp [structStep, h]
  | cons tp rest => obtain ⟨t, ln⟩ := tp; simp [structStep, h]

theorem structStep_eq_unmatched (pn cur : Nat) (errs : List ValidationError)
    (n a : String) (h : n ∈ valid_tags) :
    structStep pn cur (errs, []) (true, n, a) =
      (errs ++ [unmatchedClosingTagErr cur pn n], []) := by
  simp [structStep, h]

theorem structStep_eq_mismatch (pn cur : Nat) (errs : List ValidationError)
    (t : String) (ln : Nat) (rest : TagStack) (n a : String)
    (h : n ∈ valid_tags) (hne : t ≠ n) :
    structStep pn cur (errs, (t, ln) :: rest) (true, n, a) =
      (errs ++ [mismatchedTagErr cur pn n t ln], (t, ln) :: rest) := by
  simp [structStep, h, hne]

theorem structStep_eq_pop (pn cur : Nat) (errs : List ValidationError)
    (t : String) (ln : Nat) (rest : TagStack) (a : String) (h : t ∈ valid_tags) :
    structStep pn cur (errs, (t, ln) :: rest) (true, t, a) = (errs, rest) := by
  simp [structStep, h]

theorem structStep_inv (pn cur : Nat) (errs : List ValidationError) (stack : TagStack)
    (tag : TagMatch) (he : noUnclosedIn errs) (hb : ∀ p ∈ stack, p.2 ≤ cur)
    (hc : stackDescending stack) :
    noUnclosedIn (structStep pn cur (errs, stack) tag).1 ∧
    (∀ p ∈ (structStep pn cur (errs, stack) tag).2, p.2 ≤ cur) ∧
    stackDescending (structStep pn cur (errs, stack) tag).2 := by
  obtain ⟨b, n, a⟩ := tag
  by_cases h1 : n ∈ valid_tags
  · cases b with
    | false =>
      rw [structStep_eq_push pn cur errs stack n a h1]
      refine ⟨he, ?_, ?_⟩
      · intro p hp
        rcases List.mem_cons.mp hp with rfl | hp2
        · exact le_refl cur
        · exact hb p hp2
      · rw [stackDescending, List.chain'_cons']
        refine ⟨?_, hc⟩
        intro y hy
        exact hb y (List.mem_of_mem_head? hy)
    | true =>
      cases stack with
      | nil =>
        rw [structStep_eq_unmatched pn cur errs n a h1]
        refine ⟨?_, ?_, ?_⟩
        · intro e hee
          rcases List.mem_append.mp hee with h | h
          · exact he e h
          · rcases List.mem_singleton.mp h with rfl
            simp [unmatchedClosingTagErr]
        · intro p hp
          cases hp
        · simp [stackDescending]
      | cons tp rest =>
        obtain ⟨t, ln⟩ := tp
        by_cases h3 : t = n
        · subst h3
          rw [structStep_eq_pop pn cur errs t ln rest a h1]
          exact ⟨he, fun p hp => hb p (List.mem_cons_of_mem _ hp),
            List.Chain'.tail hc⟩
        · rw [structStep_eq_mismatch pn cur errs t ln rest n a h1 h3]
          refine ⟨?_, hb, hc⟩
          intro e hee
          rcases List.mem_append.mp hee with h | h
          · exact he e h
          · rcases List.mem_singleton.mp h with rfl
            simp [mismatchedTagErr]
  · rw [structStep_eq_invalid pn cur errs stack (b, n, a) h1]
    exact ⟨he, hb, hc⟩

theorem structFold_inv (pn cur : Nat) (tags : List TagMatch) :
    ∀ errs stack, noUnclosedIn errs → (∀ p ∈ stack, p.2 ≤ cur) → stackDescending stack →
    noUnclosedIn (tags.foldl (structStep pn cur) (errs, stack)).1 ∧
    (∀ p ∈ (tags.foldl (structStep pn cur) (errs, stack)).2, p.2 ≤ cur) ∧
    stackDescending (tags.foldl (structStep pn cur) (errs, stack)).2 := by
  induction tags with
  | nil => intro errs stack h1 h2 h3; exact ⟨h1, h2, h3⟩
  | cons tag rest ih =>
    intro errs stack h1 h2 h3
    have hs := structStep_inv pn cur errs stack tag h1 h2 h3
    rw [List.foldl_cons]
    have := ih (structStep pn cur (errs, stack) tag).1
      (structStep pn cur (errs, stack) tag).2 hs.1 hs.2.1 hs.2.2
    simpa using this

theorem structLines_inv (pn : Nat) (lines : List String) :
    ∀ cur errs stack, noUnclosedIn errs → (∀ p ∈ stack, p.2 ≤ cur) →
    stackDescending stack →
    noUnclosedIn (structLines pn lines cur (errs, stack)).1 ∧
    stackDescending (structLines pn lines cur (errs, stack)).2 := by
  induction lines with
  | nil => intro cur errs stack h1 _ h3; exact ⟨h1, h3⟩
  | cons l rest ih =>
    intro cur errs stack h1 h2 h3
    rw [structLines]
    have hf := structFold_inv pn cur (findTags l) errs stack h1 h2 h3
    have := ih (cur + 1) ((findTags l).foldl (structStep pn cur) (errs, stack)).1
      ((findTags l).foldl (structStep pn cur) (errs, stack)).2 hf.1
      (fun p hp => Nat.le_succ_of_le (hf.2.1 p hp)) hf.2.2
    simpa using this

/-- C5 (amended): after the nesting pass, each tag still on the stack yields
exactly one `UNCLOSED_TAG` error referencing its opening line; the errors are
emitted in *opening* order (the reverse of the stack's pop order, i.e.
least-recently-opened first), so their referenced line numbers are
nondecreasing. -/
theorem C5_amended_theorem (prompt_content : String) (start_line pn : Nat) :
    (validate_xml_structure prompt_content start_line pn).filter isUnclosedKind =
      ((structLines pn (pySplitLines prompt_content) start_line ([], [])).2).reverse.map
        (fun p => unclosedTagErr p.2 pn p.1) ∧
    List.Chain' (· ≤ ·)
      (((validate_xml_structure prompt_content start_line pn).filter isUnclosedKind).map
        ValidationError.line_number) := by
  have hinv := structLines_inv pn (pySplitLines prompt_content) start_line [] []
    (by intro e he; cases he) (by intro p hp; cases hp) (by simp [stackDescending])
  have hfilter : (validate_xml_structure prompt_content start_line pn).filter isUnclosedKind =
      ((structLines pn (pySplitLines prompt_content) start_line ([], [])).2).reverse.map
        (fun p => unclosedTagErr p.2 pn p.1) := by
    rw [validate_xml_structure, List.filter_append]
    have h1 : (structLines pn (pySplitLines prompt_content) start_line ([], [])).1.filter
        isUnclosedKind = [] := by
      rw [List.filter_eq_nil_iff]
      intro e he
      have := hinv.1 e he
      simp [isUnclosedKind, this]
    have h2 : (((structLines pn (pySplitLines prompt_content) start_line ([], [])).2).reverse.map
        (fun p => unclosedTagErr p.2 pn p.1)).filter isUnclosedKind =
        ((structLines pn (pySplitLines prompt_content) start_line ([], [])).2).reverse.map
        (fun p => unclosedTagErr p.2 pn p.1) := by
      rw [List.filter_eq_self]
      intro e he
      rcases List.mem_map.mp he with ⟨p, _, rfl⟩
      simp [isUnclosedKind, unclosedTagErr]
    rw [h1, h2, List.nil_append]
  refine ⟨hfilter, ?_⟩
  rw [hfilter, List.map_map]
  have hcomp : (ValidationError.line_number ∘ fun p : String × Nat =>
      unclosedTagErr p.2 pn p.1) = (fun p : String × Nat => p.2) := by
    funext p
    rfl
  rw [hcomp]
  rw [List.chain'_map (fun p : String × Nat => p.2)]
  exact List.chain'_reverse.mpr hinv.2

/-! ## C3 -/

/-- C3 counterexample: ordinals do count empty spans.  In
`check_duplicates.analyze_file`, the file `"---\n \n---\n \n---\nbar"` has
`"bar"` as its only non-whitespace span, yet `"bar"` is recorded as sample 2
(`sample_num` is incremented at every `---` line, and a whitespace-only span
additionally swallows the following separator as its content line).  In
`validate.py`, a leading all-whitespace span consumes prompt number 1, so the
`DUPLICATE_ID` in the only non-whitespace span is reported "in prompt 2". -/
theorem C3_counterexample :
    CheckDuplicates.analyze_file "---\n \n---\n \n---\nbar" = [("bar", [(2, 6)])] ∧
    validateContent " \n---\n<quote id=\"a\">x</quote><quote id=\"a\">y</quote>" =
      [duplicateIdErr 3 2 "a"] := by
  constructor
  · decide
  · decide

/-- `enumerate(prompts)` with 1-based numbers attached. -/
def numberedPrompts : List (String × Nat) → Nat → List (Nat × String × Nat)
  | [], _ => []
  | p :: rest, idx => (idx + 1, p) :: numberedPrompts rest (idx + 1)

theorem numberedPrompts_numbers (ps : List (String × Nat)) :
    ∀ idx, (numberedPrompts ps idx).map Prod.fst = List.range' (idx + 1) ps.length := by
  induction ps with
  | nil => intro idx; simp [numberedPrompts]
  | cons p rest ih =>
    intro idx
    rw [numberedPrompts]
    simp only [List.map_cons, List.length_cons, List.range'_succ, ih (idx + 1)]

theorem validatePromptsLoop_eq_numbered (ps : List (String × Nat)) :
    ∀ idx, validatePromptsLoop ps idx =
      (numberedPrompts ps idx).foldr
        (fun q acc => validate_prompt q.2.1 q.2.2 q.1 ++ acc) [] := by
  induction ps with
  | nil => intro idx; rfl
  | cons p rest ih =>
    intro idx
    rw [validatePromptsLoop, numberedPrompts, List.foldr_cons, ih (idx + 1)]

theorem ordsAppendChain {α : Type} (f : α → Nat) (sn : Nat) (recs tail : List α)
    (hr : ∀ r ∈ recs, f r = sn + 1) (hr1 : recs.length ≤ 1)
    (ht : ∀ r ∈ tail, sn + 1 < f r)
    (htc : List.Chain' (fun r s => f r < f s) tail) :
    (∀ r ∈ recs ++ tail, sn < f r) ∧
    List.Chain' (fun r s => f r < f s) (recs ++ tail) := by
  cases recs with
  | nil =>
    refine ⟨?_, by simpa using htc⟩
    intro r hrr
    rw [List.nil_append] at hrr
    exact Nat.lt_of_succ_lt (ht r hrr)
  | cons r0 rtl =>
    cases rtl with
    | cons r1 rtl2 => simp at hr1
    | nil =>
      have h0 : f r0 = sn + 1 := hr r0 (List.mem_singleton.mpr rfl)
      constructor
      · intro r hrr
        rcases List.mem_append.mp hrr with h | h
        · rcases List.mem_singleton.mp h with rfl
          omega
        · have := ht r h
          omega
      · rw [List.singleton_append, List.chain'_cons']
        refine ⟨?_, htc⟩
        intro y hy
        have := ht y (List.mem_of_mem_head? hy)
        omega

theorem oversizedRec_ordinal (s : Nat) (content : List String) (cs : Nat) :
    (∀ r ∈ CharCounter.oversizedRec s content cs, r.1 = s) ∧
    (CharCounter.oversizedRec s content cs).length ≤ 1 := by
  constructor
  · intro r hr
    unfold CharCounter.oversizedRec at hr
    split_ifs at hr <;> simp_all
  · unfold CharCounter.oversizedRec
    split_ifs <;> simp <;> split_ifs <;> simp

theorem ccLoop_ordinals (fuel : Nat) : ∀ lines i sn,
    (∀ r ∈ (CharCounter.loop fuel lines i sn).1, sn < r.1) ∧
    List.Chain' (fun r s : Nat × Nat × Nat × Nat => r.1 < s.1)
      (CharCounter.loop fuel lines i sn).1 := by
  induction fuel with
  | zero =>
    intro lines i sn
    constructor <;> simp [CharCounter.loop]
  | succ fuel ih =>
    intro lines i sn
    cases lines with
    | nil => constructor <;> simp [CharCounter.loop]
    | cons l rest =>
      rw [CharCounter.loop]
      split
      · have hover := oversizedRec_ordinal (sn + 1)
          (CharCounter.gather (CharCounter.skipEmpty rest (i + 1)).1
            (CharCounter.skipEmpty rest (i + 1)).2).1
          (CharCounter.skipEmpty rest (i + 1)).2
        have htail := ih
          (CharCounter.gather (CharCounter.skipEmpty rest (i + 1)).1
            (CharCounter.skipEmpty rest (i + 1)).2).2.1
          (CharCounter.gather (CharCounter.skipEmpty rest (i + 1)).1
            (CharCounter.skipEmpty rest (i + 1)).2).2.2
          (sn + 1)
        exact ordsAppendChain (fun r : Nat × Nat × Nat × Nat => r.1) sn _ _
          hover.1 hover.2 htail.1 htail.2
      · exact ih rest (i + 1) sn

theorem recordOf_ordinal (l : String) (sn ln : Nat) :
    (∀ r ∈ CheckDuplicates.recordOf l sn ln, r.2.1 = sn) ∧
    (CheckDuplicates.recordOf l sn ln).length ≤ 1 := by
  unfold CheckDuplicates.recordOf
  split
  · cases CheckDuplicates.firstWordMatch (pyStrip l).data with
    | none => simp
    | some w => simp
  · simp

theorem cdLoop_ordinals (fuel : Nat) : ∀ lines i sn,
    (∀ r ∈ CheckDuplicates.loop fuel lines i sn, sn < r.2.1) ∧
    List.Chain' (fun r s : String × Nat × Nat => r.2.1 < s.2.1)
      (CheckDuplicates.loop fuel lines i sn) := by
  induction fuel with
  | zero =>
    intro lines i sn
    constructor <;> simp [CheckDuplicates.loop]
  | succ fuel ih =>
    intro lines i sn
    cases lines with
    | nil => constructor <;> simp [CheckDuplicates.loop]
    | cons l rest =>
      rw [CheckDuplicates.loop]
      split
      · split
        · constructor <;> simp
        · case _ c rem2 j _ =>
          have hrec := recordOf_ordinal c (sn + 1) (j + 1)
          have htail := ih rem2 (j + 1) (sn + 1)
          exact ordsAppendChain (fun r : String × Nat × Nat => r.2.1) sn _ _
            hrec.1 hrec.2 htail.1 htail.2
      · exact ih rest (i + 1) sn

/-- C3 (amended): sample ordinals are 1-based and strictly increasing in file
order in each utility, but they do not count only non-empty spans:
`validate.py` numbers *every* span its splitter emits (all-whitespace spans
included) consecutively from 1, while `char_counter.py` and
`check_duplicates.py` increment `sample_num` at every `---` delimiter line
regardless of the span's content. -/
theorem C3_amended_theorem (content : String) :
    (numberedPrompts (split_into_prompts content) 0).map Prod.fst =
      List.range' 1 (split_into_prompts content).length ∧
    validateContent content =
      (numberedPrompts (split_into_prompts content) 0).foldr
        (fun q acc => validate_prompt q.2.1 q.2.2 q.1 ++ acc) [] ∧
    (∀ r ∈ (CharCounter.run content).1, 0 < r.1) ∧
    List.Chain' (fun r s : Nat × Nat × Nat × Nat => r.1 < s.1)
      (CharCounter.run content).1 ∧
    (∀ r ∈ CheckDuplicates.occurrences content, 0 < r.2.1) ∧
    List.Chain' (fun r s : String × Nat × Nat => r.2.1 < s.2.1)
      (CheckDuplicates.occurrences content) := by
  have hcc := ccLoop_ordinals ((pyReadlines content).length + 1) (pyReadlines content) 0 0
  have hcd := cdLoop_ordinals ((pyReadlines content).length + 1) (pyReadlines content) 0 0
  exact ⟨numberedPrompts_numbers (split_into_prompts content) 0,
    validatePromptsLoop_eq_numbered (split_into_prompts content) 0,
    hcc.1, hcc.2, hcd.1, hcd.2⟩
